import Mathlib

/-!
Shallow embedding of `src/src-tauri/src/main.rs` of the EVE Sentinel
repository: the Tauri bootstrap entry point.  The Rust source builds a
`tauri::Builder`, attaches four plugins (shell, http, notification, opener),
installs a setup callback that, on non-Android/non-iOS targets, registers a
single-instance plugin whose second-launch callback refocuses the window
labelled "main", prints a startup line, installs an empty invoke handler,
and runs the event loop, panicking via `expect` if the run fails.

The embedding represents the observable behaviour of a run of `main` as a
list of events together with a process outcome, parameterised by an
environment that decides which plugin initialisations succeed, which
webview windows exist, and how the event loop eventually exits.
-/

/-- Decidable equality for `Except`, needed to evaluate the model on
concrete inputs. -/
instance instDecidableEqExcept {ε α} [DecidableEq ε] [DecidableEq α] :
    DecidableEq (Except ε α) := fun x y =>
  match x, y with
  | Except.ok a, Except.ok b =>
      if h : a = b then isTrue (by rw [h])
      else isFalse (fun hc => h (by injection hc))
  | Except.ok _, Except.error _ => isFalse (fun hc => Except.noConfusion hc)
  | Except.error _, Except.ok _ => isFalse (fun hc => Except.noConfusion hc)
  | Except.error e, Except.error f =>
      if h : e = f then isTrue (by rw [h])
      else isFalse (fun hc => h (by injection hc))

namespace EveSentinel

/-- The compilation targets distinguished by the source's conditional
compilation attribute `cfg(not(any(target_os = "android", target_os =
"ios")))`. -/
inductive TargetOS
  | android
  | ios
  | linux
  | macos
  | windows
  deriving DecidableEq, Repr

/-- The condition `not(any(target_os = "android", target_os = "ios"))` used
by the `cfg` attribute guarding the single-instance registration. -/
def cfgNotAndroidIos (os : TargetOS) : Bool :=
  !(os == TargetOS.android || os == TargetOS.ios)

/-- The plugins referenced by `main`: the four always-on builder plugins and
the conditionally registered single-instance plugin. -/
inductive Plugin
  | shell
  | http
  | notification
  | opener
  | singleInstance
  deriving DecidableEq, Repr

/-- An error produced by the Tauri host (plugin initialisation or setup). -/
structure TauriError where
  msg : String
  deriving DecidableEq, Repr

/-- An error produced by `Window::set_focus`. -/
structure FocusError where
  msg : String
  deriving DecidableEq, Repr

/-- A webview window of the running app: its label and the result that a
`set_focus` call on it would return. -/
structure Window where
  label : String
  setFocusResult : Except FocusError Unit
  deriving DecidableEq, Repr

/-- The app handle visible to the single-instance callback: the collection
of webview windows currently alive. -/
structure AppHandle where
  windows : List Window
  deriving DecidableEq, Repr

/-- Lookup `AppHandle::get_webview_window(label)`: the first webview window
whose label matches, if any. -/
def AppHandle.get_webview_window (app : AppHandle) (l : String) :
    Option Window :=
  app.windows.find? (fun w => w.label == l)

/-- Observable actions of the single-instance second-launch callback. -/
inductive CallbackEvent
  | focusRequested (label : String)
  deriving DecidableEq, Repr

/-- The single-instance second-launch callback from `main`:

```rust
|app, _args, _cwd| {
    if let Some(window) = app.get_webview_window("main") {
        let _ = window.set_focus();
    }
}
```

It receives the app handle, the argument list and working directory of the
second launch; it looks up the window labelled "main", and if present issues
a focus request, discarding the `Result` of `set_focus` (the Rust binding
`let _ = ...`).  The returned pair is the list of actions performed and the
completion of the callback body. -/
def singleInstanceCallback (app : AppHandle) (_args : List String)
    (_cwd : String) : List CallbackEvent × Except TauriError Unit :=
  match app.get_webview_window "main" with
  | some w =>
      let _discarded := w.setFocusResult
      ([CallbackEvent.focusRequested w.label], Except.ok ())
  | none => ([], Except.ok ())

/-- Observable events of a run of `main`. -/
inductive Event
  | pluginRegistered (p : Plugin)
  | printed (s : String)
  | eventLoopStarted
  deriving DecidableEq, Repr

/-- Whether an event is a plugin registration. -/
def Event.isRegistration : Event → Bool
  | Event.pluginRegistered _ => true
  | _ => false

/-- The host environment a run of `main` is exposed to: whether each
plugin's initialisation succeeds, and the exit code the event loop produces
when it terminates. -/
structure Env where
  pluginInit : Plugin → Except TauriError Unit
  eventLoopExitCode : Int

/-- The string printed by the startup log statement
`println!("EVE Sentinel starting...")`. -/
def startupMessage : String := "EVE Sentinel starting..."

/-- The message of the `expect` on the result of `run`:
`expect("error while running tauri application")`. -/
def expectMessage : String := "error while running tauri application"

/-- The plugins attached to the builder, in source order:
`.plugin(tauri_plugin_shell::init())`, `.plugin(tauri_plugin_http::init())`,
`.plugin(tauri_plugin_notification::init())`,
`.plugin(tauri_plugin_opener::init())`. -/
def builderPlugins : List Plugin :=
  [Plugin.shell, Plugin.http, Plugin.notification, Plugin.opener]

/-- The command names passed to `tauri::generate_handler![]`: the macro is
invoked with an empty list of commands. -/
def invokeCommands : List String := []

/-- Outcome of dispatching a command invocation from hosted content. -/
inductive InvokeOutcome
  | handled (cmd : String)
  | unknownCommand (cmd : String)
  deriving DecidableEq, Repr

/-- Modelled from the spec: the host's dispatch of a command invocation over
the table produced by `generate_handler![]` (the dispatcher itself is Tauri
framework code, not part of this repository).  A name in the table is
handled; any other name fails with an "unknown command" condition. -/
def invoke_handler (cmd : String) : InvokeOutcome :=
  if invokeCommands.contains cmd then InvokeOutcome.handled cmd
  else InvokeOutcome.unknownCommand cmd

/-- Initialisation of a list of builder plugins, in order: each plugin whose
initialisation succeeds is recorded as registered; the first failure aborts
the remainder and surfaces the error. -/
def initPlugins (env : Env) : List Plugin → List Event × Except TauriError Unit
  | [] => ([], Except.ok ())
  | p :: ps =>
      match env.pluginInit p with
      | Except.ok _ =>
          (Event.pluginRegistered p :: (initPlugins env ps).1,
           (initPlugins env ps).2)
      | Except.error e => ([], Except.error e)

/-- The setup closure of `main`: on targets satisfying `cfgNotAndroidIos`
it registers the single-instance plugin on the app handle, propagating a
failure with the Rust operator `?` before anything is printed; then it
prints the startup line and returns `Ok(())`. -/
def setupClosure (os : TargetOS) (env : Env) :
    List Event × Except TauriError Unit :=
  if cfgNotAndroidIos os then
    match env.pluginInit Plugin.singleInstance with
    | Except.ok _ =>
        ([Event.pluginRegistered Plugin.singleInstance,
          Event.printed startupMessage], Except.ok ())
    | Except.error e => ([], Except.error e)
  else ([Event.printed startupMessage], Except.ok ())

/-- Tauri's `Builder::run`: initialise the builder plugins in order; if all
succeed, run the setup closure; if it succeeds, enter the event loop, whose
termination yields the environment's exit code.  Any failure along the way
is surfaced as an error without starting the event loop. -/
def run (os : TargetOS) (env : Env) : List Event × Except TauriError Int :=
  match initPlugins env builderPlugins with
  | (evs, Except.error e) => (evs, Except.error e)
  | (evs, Except.ok _) =>
      match setupClosure os env with
      | (evs2, Except.error e) => (evs ++ evs2, Except.error e)
      | (evs2, Except.ok _) =>
          (evs ++ evs2 ++ [Event.eventLoopStarted],
           Except.ok env.eventLoopExitCode)

/-- Modelled from the spec: the exit code of a Rust panic (the panic
runtime behind `expect` is not part of this repository); the spec calls it
a non-zero, platform-defined failure code, and the standard Rust runtime
uses 101. -/
def panicExitCode : Int := 101

/-- How the process terminates: either the event loop ended and the process
exits with its code, or `expect` panicked with a message. -/
inductive ProcessOutcome
  | exited (code : Int)
  | panicked (msg : String)
  deriving DecidableEq, Repr

/-- The exit code the OS observes for a process outcome. -/
def processExitCode : ProcessOutcome → Int
  | ProcessOutcome.exited c => c
  | ProcessOutcome.panicked _ => panicExitCode

/-- The entry point `main`.  The Rust `fn main()` receives no parameters;
the process's command-line arguments and environment variables are modelled
as explicit inputs to show they are never consulted.  `main` performs the
builder run and applies `.expect(expectMessage)` to its result. -/
def main (os : TargetOS) (env : Env) (_argv : List String)
    (_envVars : List (String × String)) : List Event × ProcessOutcome :=
  match run os env with
  | (evs, Except.ok code) => (evs, ProcessOutcome.exited code)
  | (evs, Except.error _) => (evs, ProcessOutcome.panicked expectMessage)

/-- Whether every plugin initialisation `main` attempts on target `os`
succeeds in environment `env`. -/
def startupSucceeds (os : TargetOS) (env : Env) : Bool :=
  builderPlugins.all (fun p => decide (env.pluginInit p = Except.ok ()))
    && (!cfgNotAndroidIos os
        || decide (env.pluginInit Plugin.singleInstance = Except.ok ()))

/-- The registration events a fully successful startup produces, in order:
the four builder plugins and, on non-mobile targets, the single-instance
plugin. -/
def expectedRegistrations (os : TargetOS) : List Event :=
  builderPlugins.map Event.pluginRegistered
    ++ (if cfgNotAndroidIos os
        then [Event.pluginRegistered Plugin.singleInstance] else [])

/- ### Helper lemmas -/

/-- If every plugin in the list initialises successfully, `initPlugins`
registers them all, in order, and succeeds. -/
theorem initPlugins_ok (env : Env) (ps : List Plugin)
    (h : ∀ p ∈ ps, env.pluginInit p = Except.ok ()) :
    initPlugins env ps = (ps.map Event.pluginRegistered, Except.ok ()) := by
  induction ps with
  | nil => rfl
  | cons p ps ih =>
      have hp : env.pluginInit p = Except.ok () :=
        h p (List.mem_cons_self p ps)
      have hps : ∀ q ∈ ps, env.pluginInit q = Except.ok () :=
        fun q hq => h q (List.mem_cons_of_mem p hq)
      simp [initPlugins, hp, ih hps]

/-- If `initPlugins` succeeds, every plugin in the list initialised
successfully. -/
theorem initPlugins_snd_ok (env : Env) (ps : List Plugin)
    (h : (initPlugins env ps).2 = Except.ok ()) :
    ∀ p ∈ ps, env.pluginInit p = Except.ok () := by
  induction ps with
  | nil => intro p hp; simp at hp
  | cons p ps ih =>
      intro q hq
      cases hp : env.pluginInit p with
      | error e => simp [initPlugins, hp] at h
      | ok u =>
          cases u
          simp only [initPlugins, hp] at h
          rcases List.mem_cons.mp hq with hq1 | hq1
          · rw [hq1]; exact hp
          · exact ih h q hq1

/-- Every event `initPlugins` emits is the registration of a plugin of the
given list. -/
theorem initPlugins_events (env : Env) (ps : List Plugin) :
    ∀ ev ∈ (initPlugins env ps).1,
      ∃ p, p ∈ ps ∧ ev = Event.pluginRegistered p := by
  induction ps with
  | nil => intro ev hev; simp [initPlugins] at hev
  | cons p ps ih =>
      intro ev hev
      cases hp : env.pluginInit p with
      | error e => simp [initPlugins, hp] at hev
      | ok u =>
          cases u
          simp only [initPlugins, hp] at hev
          rcases List.mem_cons.mp hev with h1 | h1
          · exact ⟨p, List.mem_cons_self p ps, h1⟩
          · obtain ⟨q, hq, hq2⟩ := ih ev h1
            exact ⟨q, List.mem_cons_of_mem p hq, hq2⟩

/-- The single-instance registration event never comes from initialising
the builder plugins. -/
theorem guard_not_in_builder_events (env : Env) :
    Event.pluginRegistered Plugin.singleInstance ∉
      (initPlugins env builderPlugins).1 := by
  intro hmem
  obtain ⟨p, hp, hpe⟩ := initPlugins_events env builderPlugins _ hmem
  have hps : Plugin.singleInstance = p := by injection hpe
  rw [← hps] at hp
  simp [builderPlugins] at hp

/-- On mobile targets the setup closure only prints the startup line. -/
theorem setupClosure_mobile (os : TargetOS) (env : Env)
    (hos : cfgNotAndroidIos os = false) :
    setupClosure os env = ([Event.printed startupMessage], Except.ok ()) := by
  simp [setupClosure, hos]

/-- A failing setup closure emits no event. -/
theorem setupClosure_error_nil (os : TargetOS) (env : Env) (e : TauriError)
    (h : (setupClosure os env).2 = Except.error e) :
    (setupClosure os env).1 = [] := by
  cases hos : cfgNotAndroidIos os with
  | false => rw [setupClosure_mobile os env hos] at h; simp at h
  | true =>
      cases hg : env.pluginInit Plugin.singleInstance with
      | ok u => cases u; simp [setupClosure, hos, hg] at h
      | error e2 => simp [setupClosure, hos, hg]

/-- If the setup closure succeeds on a desktop target, the single-instance
plugin initialised successfully. -/
theorem setupClosure_ok_guard (os : TargetOS) (env : Env)
    (hos : cfgNotAndroidIos os = true)
    (h : (setupClosure os env).2 = Except.ok ()) :
    env.pluginInit Plugin.singleInstance = Except.ok () := by
  cases hg : env.pluginInit Plugin.singleInstance with
  | ok u => cases u; rfl
  | error e => simp [setupClosure, hos, hg] at h

/-- On a fully successful startup the run registers the expected plugins,
prints the startup line, starts the event loop, and returns the event
loop's exit code. -/
theorem run_of_success (os : TargetOS) (env : Env)
    (h : startupSucceeds os env = true) :
    run os env =
      (expectedRegistrations os
         ++ [Event.printed startupMessage, Event.eventLoopStarted],
       Except.ok env.eventLoopExitCode) := by
  unfold startupSucceeds at h
  rw [Bool.and_eq_true] at h
  have hball : ∀ p ∈ builderPlugins, env.pluginInit p = Except.ok () := by
    intro p hp
    exact of_decide_eq_true (List.all_eq_true.mp h.1 p hp)
  have hinit := initPlugins_ok env builderPlugins hball
  cases hos : cfgNotAndroidIos os with
  | true =>
      have hsi : env.pluginInit Plugin.singleInstance = Except.ok () := by
        have h2 := h.2
        rw [hos] at h2
        simpa using h2
      simp [run, hinit, setupClosure, hos, hsi, expectedRegistrations]
  | false =>
      simp [run, hinit, setupClosure, hos, expectedRegistrations]

/-- A startup with a failing plugin initialisation makes the run surface an
error. -/
theorem run_of_failure (os : TargetOS) (env : Env)
    (h : startupSucceeds os env = false) :
    ∃ e, (run os env).2 = Except.error e := by
  cases hr : (run os env).2 with
  | error e => exact ⟨e, rfl⟩
  | ok c =>
      exfalso
      cases hinit : initPlugins env builderPlugins with
      | mk evs r =>
          cases r with
          | error e => simp [run, hinit] at hr
          | ok u =>
              cases u
              cases hsetup : setupClosure os env with
              | mk evs2 r2 =>
                  cases r2 with
                  | error e2 => simp [run, hinit, hsetup] at hr
                  | ok u2 =>
                      cases u2
                      have hball : ∀ p ∈ builderPlugins,
                          env.pluginInit p = Except.ok () :=
                        initPlugins_snd_ok env builderPlugins (by rw [hinit])
                      have h1 : builderPlugins.all
                          (fun p => decide (env.pluginInit p = Except.ok ()))
                            = true :=
                        List.all_eq_true.mpr
                          (fun p hp => decide_eq_true (hball p hp))
                      have h2 : (!cfgNotAndroidIos os
                          || decide (env.pluginInit Plugin.singleInstance =
                                Except.ok ())) = true := by
                        cases hos : cfgNotAndroidIos os with
                        | false => simp
                        | true =>
                            have hg := setupClosure_ok_guard os env hos
                              (by rw [hsetup])
                            simp [decide_eq_true hg]
                      unfold startupSucceeds at h
                      rw [h1, h2] at h
                      simp at h

/-- Every event of a failed run is the registration of a builder plugin. -/
theorem run_error_events (os : TargetOS) (env : Env) (e : TauriError)
    (h : (run os env).2 = Except.error e) :
    ∀ ev ∈ (run os env).1,
      ∃ p, p ∈ builderPlugins ∧ ev = Event.pluginRegistered p := by
  intro ev hev
  cases hinit : initPlugins env builderPlugins with
  | mk evs r =>
      cases r with
      | error e2 =>
          simp only [run, hinit] at hev
          exact initPlugins_events env builderPlugins ev
            (by rw [hinit]; exact hev)
      | ok u =>
          cases u
          cases hsetup : setupClosure os env with
          | mk evs2 r2 =>
              cases r2 with
              | ok u2 => cases u2; simp [run, hinit, hsetup] at h
              | error e2 =>
                  have hnil : evs2 = [] := by
                    have h3 := setupClosure_error_nil os env e2
                      (by rw [hsetup])
                    rw [hsetup] at h3
                    exact h3
                  subst hnil
                  simp only [run, hinit, hsetup, List.append_nil] at hev
                  exact initPlugins_events env builderPlugins ev
                    (by rw [hinit]; exact hev)

/-- The event loop start never appears among the events of a failed run. -/
theorem run_error_no_loop (os : TargetOS) (env : Env) (e : TauriError)
    (h : (run os env).2 = Except.error e) :
    Event.eventLoopStarted ∉ (run os env).1 := by
  intro hmem
  obtain ⟨p, _, hpe⟩ := run_error_events os env e h Event.eventLoopStarted hmem
  exact Event.noConfusion hpe

/-- The events of `main` are the events of the builder run. -/
theorem main_fst (os : TargetOS) (env : Env) (argv : List String)
    (vars : List (String × String)) :
    (main os env argv vars).1 = (run os env).1 := by
  cases hr : run os env with
  | mk evs r => cases r <;> simp [main, hr]

/-- A successful run makes `main` exit with the event loop's code. -/
theorem main_snd_of_ok (os : TargetOS) (env : Env) (c : Int)
    (argv : List String) (vars : List (String × String))
    (h : (run os env).2 = Except.ok c) :
    (main os env argv vars).2 = ProcessOutcome.exited c := by
  cases hr : run os env with
  | mk evs r =>
      rw [hr] at h
      cases r with
      | ok c2 =>
          have : c2 = c := by simpa using h
          rw [← this]
          simp [main, hr]
      | error e => simp at h

/-- A failed run makes `main` panic through `expect`. -/
theorem main_snd_of_error (os : TargetOS) (env : Env) (e : TauriError)
    (argv : List String) (vars : List (String × String))
    (h : (run os env).2 = Except.error e) :
    (main os env argv vars).2 = ProcessOutcome.panicked expectMessage := by
  cases hr : run os env with
  | mk evs r =>
      rw [hr] at h
      cases r with
      | ok c2 => simp at h
      | error e2 => simp [main, hr]

/- ### Claim theorems -/

/-- C1: `main` attaches exactly the four always-on plugins to the builder
in the order shell, http, notification, opener, and the setup registers the
single-instance plugin exactly when the target is neither Android nor iOS:
on a fully successful startup the registration events of a run are exactly
these, in that order, with no other plugin registered. -/
theorem main_registers_exactly_the_fixed_plugins (os : TargetOS) (env : Env)
    (argv : List String) (vars : List (String × String))
    (h : startupSucceeds os env = true) :
    builderPlugins = [Plugin.shell, Plugin.http, Plugin.notification,
      Plugin.opener] ∧
    (main os env argv vars).1.filter Event.isRegistration =
      (builderPlugins
          ++ (if cfgNotAndroidIos os then [Plugin.singleInstance] else [])
        ).map Event.pluginRegistered := by
  refine ⟨rfl, ?_⟩
  rw [main_fst, run_of_success os env h]
  cases hos : cfgNotAndroidIos os <;>
    simp [expectedRegistrations, builderPlugins, hos, Event.isRegistration]

/-- Witness for C1 at a concrete fully successful environment on Linux. -/
theorem main_registers_exactly_the_fixed_plugins_witness :
    startupSucceeds TargetOS.linux ⟨fun _ => Except.ok (), 0⟩ = true ∧
    (builderPlugins = [Plugin.shell, Plugin.http, Plugin.notification,
        Plugin.opener] ∧
     (main TargetOS.linux ⟨fun _ => Except.ok (), 0⟩ [] []).1.filter
        Event.isRegistration =
      (builderPlugins
          ++ (if cfgNotAndroidIos TargetOS.linux
              then [Plugin.singleInstance] else [])
        ).map Event.pluginRegistered) :=
  ⟨by decide,
   main_registers_exactly_the_fixed_plugins TargetOS.linux
     ⟨fun _ => Except.ok (), 0⟩ [] [] (by decide)⟩

/-- C2: the second-launch callback issues a focus request to the window
labelled "main" when it exists, and when no such window exists it performs
no action; in both cases it completes without reporting an error. -/
theorem callback_focuses_main_or_noop (app : AppHandle) (args : List String)
    (cwd : String) :
    (∀ w, app.get_webview_window "main" = some w →
        (singleInstanceCallback app args cwd).1 =
          [CallbackEvent.focusRequested "main"]) ∧
    (app.get_webview_window "main" = none →
        (singleInstanceCallback app args cwd).1 = []) ∧
    (singleInstanceCallback app args cwd).2 = Except.ok () := by
  refine ⟨?_, ?_, ?_⟩
  · intro w hw
    have hl : w.label = "main" := by
      have hw2 : app.windows.find? (fun x : Window => x.label == "main")
          = some w := hw
      have h2 := List.find?_some hw2
      simpa using h2
    simp [singleInstanceCallback, hw, hl]
  · intro hn
    simp [singleInstanceCallback, hn]
  · cases hw : app.get_webview_window "main" <;>
      simp [singleInstanceCallback, hw]

/-- Witness for C2 at a concrete app with a "main" window. -/
theorem callback_focuses_main_or_noop_witness :
    (∀ w, AppHandle.get_webview_window ⟨[⟨"main", Except.ok ()⟩]⟩ "main"
        = some w →
      (singleInstanceCallback ⟨[⟨"main", Except.ok ()⟩]⟩ [] "/").1 =
        [CallbackEvent.focusRequested "main"]) ∧
    (AppHandle.get_webview_window ⟨[⟨"main", Except.ok ()⟩]⟩ "main" = none →
      (singleInstanceCallback ⟨[⟨"main", Except.ok ()⟩]⟩ [] "/").1 = []) ∧
    (singleInstanceCallback ⟨[⟨"main", Except.ok ()⟩]⟩ [] "/").2 =
      Except.ok () :=
  callback_focuses_main_or_noop ⟨[⟨"main", Except.ok ()⟩]⟩ [] "/"

/-- C3: when some plugin registration `main` attempts fails, the process
terminates with the fatal panic of `expect`, has a non-zero exit code, and
never starts the event loop (no retry, no degraded mode). -/
theorem setup_failure_is_fatal (os : TargetOS) (env : Env)
    (argv : List String) (vars : List (String × String))
    (h : startupSucceeds os env = false) :
    (main os env argv vars).2 = ProcessOutcome.panicked expectMessage ∧
    processExitCode (main os env argv vars).2 ≠ 0 ∧
    Event.eventLoopStarted ∉ (main os env argv vars).1 := by
  obtain ⟨e, he⟩ := run_of_failure os env h
  refine ⟨main_snd_of_error os env e argv vars he, ?_, ?_⟩
  · rw [main_snd_of_error os env e argv vars he]
    simp [processExitCode, panicExitCode]
  · rw [main_fst]
    exact run_error_no_loop os env e he

/-- Witness for C3: the shell plugin fails to initialise. -/
theorem setup_failure_is_fatal_witness :
    startupSucceeds TargetOS.linux
        ⟨fun p => if p == Plugin.shell
            then Except.error ⟨"boom"⟩ else Except.ok (), 0⟩ = false ∧
    ((main TargetOS.linux
        ⟨fun p => if p == Plugin.shell
            then Except.error ⟨"boom"⟩ else Except.ok (), 0⟩ [] []).2 =
      ProcessOutcome.panicked expectMessage ∧
     processExitCode (main TargetOS.linux
        ⟨fun p => if p == Plugin.shell
            then Except.error ⟨"boom"⟩ else Except.ok (), 0⟩ [] []).2 ≠ 0 ∧
     Event.eventLoopStarted ∉ (main TargetOS.linux
        ⟨fun p => if p == Plugin.shell
            then Except.error ⟨"boom"⟩ else Except.ok (), 0⟩ [] []).1) :=
  ⟨by decide,
   setup_failure_is_fatal TargetOS.linux
     ⟨fun p => if p == Plugin.shell
         then Except.error ⟨"boom"⟩ else Except.ok (), 0⟩ [] [] (by decide)⟩

/-- C4: the invocation-command table is empty and every command name fails
with an "unknown command" condition. -/
theorem invoke_table_empty_all_unknown :
    invokeCommands = [] ∧
    ∀ cmd : String, invoke_handler cmd = InvokeOutcome.unknownCommand cmd :=
  ⟨rfl, fun cmd => by simp [invoke_handler, invokeCommands]⟩

/-- C5: on a fully successful startup the trace of `main` is exactly the
plugin registrations followed by the single startup line and the event loop
start — the line appears exactly once and after every registration; when
some plugin registration fails, no line is ever printed. -/
theorem startup_line_semantics (os : TargetOS) (env : Env)
    (argv : List String) (vars : List (String × String)) :
    (startupSucceeds os env = true →
      (main os env argv vars).1 =
        expectedRegistrations os
          ++ [Event.printed startupMessage, Event.eventLoopStarted] ∧
      (main os env argv vars).1.count (Event.printed startupMessage) = 1) ∧
    (startupSucceeds os env = false →
      ∀ s, Event.printed s ∉ (main os env argv vars).1) := by
  constructor
  · intro h
    rw [main_fst, run_of_success os env h]
    refine ⟨rfl, ?_⟩
    cases hos : cfgNotAndroidIos os <;>
      simp [expectedRegistrations, builderPlugins, hos, List.count_append,
        List.count_cons]
  · intro h s hmem
    obtain ⟨e, he⟩ := run_of_failure os env h
    rw [main_fst] at hmem
    obtain ⟨p, _, hpe⟩ := run_error_events os env e he _ hmem
    exact Event.noConfusion hpe

/-- Witness for C5: success case on Linux, failure case with a failing http
plugin. -/
theorem startup_line_semantics_witness :
    (startupSucceeds TargetOS.linux ⟨fun _ => Except.ok (), 0⟩ = true ∧
     (main TargetOS.linux ⟨fun _ => Except.ok (), 0⟩ [] []).1 =
        expectedRegistrations TargetOS.linux
          ++ [Event.printed startupMessage, Event.eventLoopStarted] ∧
     (main TargetOS.linux ⟨fun _ => Except.ok (), 0⟩ [] []).1.count
        (Event.printed startupMessage) = 1) ∧
    (startupSucceeds TargetOS.linux
        ⟨fun p => if p == Plugin.http
            then Except.error ⟨"down"⟩ else Except.ok (), 0⟩ = false ∧
     Event.printed startupMessage ∉
       (main TargetOS.linux
          ⟨fun p => if p == Plugin.http
              then Except.error ⟨"down"⟩ else Except.ok (), 0⟩ [] []).1) :=
  ⟨⟨by decide,
    (startup_line_semantics TargetOS.linux
        ⟨fun _ => Except.ok (), 0⟩ [] []).1 (by decide)⟩,
   ⟨by decide,
    (startup_line_semantics TargetOS.linux
        ⟨fun p => if p == Plugin.http
            then Except.error ⟨"down"⟩ else Except.ok (), 0⟩ [] []).2
      (by decide) startupMessage⟩⟩

/-- C6: on Android and iOS the single-instance plugin is never registered,
in any environment; on desktop targets with a successful startup it is
registered. -/
theorem single_instance_desktop_only (os : TargetOS) (env : Env)
    (argv : List String) (vars : List (String × String)) :
    (cfgNotAndroidIos os = false →
      Event.pluginRegistered Plugin.singleInstance ∉
        (main os env argv vars).1) ∧
    (cfgNotAndroidIos os = true → startupSucceeds os env = true →
      Event.pluginRegistered Plugin.singleInstance ∈
        (main os env argv vars).1) := by
  constructor
  · intro hos hmem
    rw [main_fst] at hmem
    cases hinit : initPlugins env builderPlugins with
    | mk evs r =>
        cases r with
        | error e =>
            simp only [run, hinit] at hmem
            exact guard_not_in_builder_events env (by rw [hinit]; exact hmem)
        | ok u =>
            cases u
            have hset := setupClosure_mobile os env hos
            simp only [run, hinit, hset, List.mem_append,
              List.mem_singleton] at hmem
            rcases hmem with (hmem | hmem) | hmem
            · exact guard_not_in_builder_events env (by rw [hinit]; exact hmem)
            · exact Event.noConfusion hmem
            · exact Event.noConfusion hmem
  · intro hos h
    rw [main_fst, run_of_success os env h]
    simp [expectedRegistrations, hos]

/-- Witness for C6: Android never registers the guard; Linux with a fully
successful startup does. -/
theorem single_instance_desktop_only_witness :
    (cfgNotAndroidIos TargetOS.android = false ∧
     Event.pluginRegistered Plugin.singleInstance ∉
       (main TargetOS.android ⟨fun _ => Except.ok (), 0⟩ [] []).1) ∧
    (cfgNotAndroidIos TargetOS.linux = true ∧
     startupSucceeds TargetOS.linux ⟨fun _ => Except.ok (), 0⟩ = true ∧
     Event.pluginRegistered Plugin.singleInstance ∈
       (main TargetOS.linux ⟨fun _ => Except.ok (), 0⟩ [] []).1) :=
  ⟨⟨by decide,
    (single_instance_desktop_only TargetOS.android
        ⟨fun _ => Except.ok (), 0⟩ [] []).1 (by decide)⟩,
   ⟨by decide, by decide,
    (single_instance_desktop_only TargetOS.linux
        ⟨fun _ => Except.ok (), 0⟩ [] []).2 (by decide) (by decide)⟩⟩

/-- C7: `main` is independent of the command line and the environment
variables: two runs on the same target and host environment that differ
only in argv or environment variables produce identical events and the
same outcome. -/
theorem main_ignores_argv_and_env (os : TargetOS) (env : Env)
    (argvA argvB : List String) (varsA varsB : List (String × String)) :
    main os env argvA varsA = main os env argvB varsB := rfl

/-- C8: the outcome of `main` is either the event loop's exit — in which
case the loop start is the final event, nothing running after it — or the
fatal panic of `expect` — in which case the loop never started; no third
possibility exists. -/
theorem main_never_returns_normally (os : TargetOS) (env : Env)
    (argv : List String) (vars : List (String × String)) :
    ((main os env argv vars).2 =
        ProcessOutcome.exited env.eventLoopExitCode ∧
     (main os env argv vars).1.getLast? = some Event.eventLoopStarted) ∨
    ((main os env argv vars).2 = ProcessOutcome.panicked expectMessage ∧
     Event.eventLoopStarted ∉ (main os env argv vars).1) := by
  cases h : startupSucceeds os env with
  | true =>
      left
      have hr := run_of_success os env h
      constructor
      · exact main_snd_of_ok os env env.eventLoopExitCode argv vars
          (by rw [hr])
      · rw [main_fst, hr]
        have hsplit : expectedRegistrations os
            ++ [Event.printed startupMessage, Event.eventLoopStarted]
            = (expectedRegistrations os ++ [Event.printed startupMessage])
              ++ [Event.eventLoopStarted] := by
          simp
        simp only []
        rw [hsplit, List.getLast?_concat]
  | false =>
      right
      obtain ⟨e, he⟩ := run_of_failure os env h
      refine ⟨main_snd_of_error os env e argv vars he, ?_⟩
      rw [main_fst]
      exact run_error_no_loop os env e he

/-- C9: the second-launch callback always completes normally, even when the
focus request on the existing "main" window would return an error: that
error is discarded by the callback. -/
theorem callback_never_fails (app : AppHandle) (args : List String)
    (cwd : String) (w : Window) (e : FocusError)
    (hw : app.get_webview_window "main" = some w)
    (he : w.setFocusResult = Except.error e) :
    (singleInstanceCallback app args cwd).2 = Except.ok () ∧
    (singleInstanceCallback app args cwd).1 =
      [CallbackEvent.focusRequested "main"] := by
  have hl : w.label = "main" := by
    have hw2 : app.windows.find? (fun x : Window => x.label == "main")
        = some w := hw
    have h2 := List.find?_some hw2
    simpa using h2
  constructor
  · simp [singleInstanceCallback, hw]
  · simp [singleInstanceCallback, hw, hl]

/-- Witness for C9 at a concrete window whose focus request errors. -/
theorem callback_never_fails_witness :
    AppHandle.get_webview_window
        ⟨[⟨"main", Except.error ⟨"gone"⟩⟩]⟩ "main" =
      some ⟨"main", Except.error ⟨"gone"⟩⟩ ∧
    Window.setFocusResult ⟨"main", Except.error ⟨"gone"⟩⟩ =
      Except.error ⟨"gone"⟩ ∧
    ((singleInstanceCallback ⟨[⟨"main", Except.error ⟨"gone"⟩⟩]⟩
        ["--flag"] "/tmp").2 = Except.ok () ∧
     (singleInstanceCallback ⟨[⟨"main", Except.error ⟨"gone"⟩⟩]⟩
        ["--flag"] "/tmp").1 = [CallbackEvent.focusRequested "main"]) :=
  ⟨by decide, by decide,
   callback_never_fails ⟨[⟨"main", Except.error ⟨"gone"⟩⟩]⟩ ["--flag"] "/tmp"
     ⟨"main", Except.error ⟨"gone"⟩⟩ ⟨"gone"⟩ (by decide) (by decide)⟩

/-- C10: the second-launch callback ignores the second launch's argument
list and working directory: on the same app state, any two invocations
perform identical actions. -/
theorem callback_ignores_args_and_cwd (app : AppHandle)
    (argsA argsB : List String) (cwdA cwdB : String) :
    singleInstanceCallback app argsA cwdA =
      singleInstanceCallback app argsB cwdB := rfl

end EveSentinel
